import Mathlib

/-!
Shallow embedding of `src/starlite/stores/registry.py` (the `StoreRegistry`
class together with `default_default_factory`).

Modelling decisions, kept as close to the Python source as the embedding
allows:

* A Python `Store` object is opaque to the registry.  What the registry code
  observes of it is its identity (`is` / `id(...)`, modelled by the field
  `oid`) and its truth value under Python truthiness (`bool(store)`, modelled
  by the field `truthy`): `get` tests `if not store:` on the result of
  `self._stores.get(name)`, which is true when the lookup returned `None` or
  when the stored object is falsy.
* The Python `dict` held in `self._stores` is modelled by an association list
  with `dictGet` (`dict.get`, first binding or `none`) and `dictSet`
  (`d[k] = v`: replace the binding in place, else append), which matches
  Python dict semantics including preservation of insertion order.
* Object allocation is made explicit: a fresh-identifier counter (`fresh`)
  threads through every operation that may construct a store, so that two
  separate factory invocations yield two distinct store instances, exactly as
  two Python constructor calls do.
* A factory may raise, so it returns `Except ε (Store × Nat)` for an abstract
  exception type `ε`; the registry code never catches anything, so `get`
  propagates the value unchanged.  `register` raises `ValueError`, modelled
  by `RegisterError`.
* `get` additionally reports how many times it invoked the default factory
  during the call (its last component, `0` or `1`), which Python does
  implicitly by side effect; the claims about "exactly once" / "no second
  invocation" are stated against that count.
* The leading underscores of the private attributes `_stores` and
  `_default_factory` are dropped (`stores`, `default_factory`).
-/

/-- A store handle as the registry sees it: `oid` models Python object
identity (two stores are the same instance iff their `oid`s agree), `truthy`
models `bool(store)`. -/
structure Store where
  oid : Nat
  truthy : Bool
  deriving DecidableEq

/-- Python `d.get(key)` on the registry's dict: the first binding of the key,
`none` when the key is absent. -/
def dictGet (d : List (String × Store)) (key : String) : Option Store :=
  match d with
  | [] => none
  | (k, v) :: rest => if k = key then some v else dictGet rest key

/-- Python `d[key] = val`: replace the existing binding in place, otherwise
append the new binding at the end. -/
def dictSet (d : List (String × Store)) (key : String) (val : Store) :
    List (String × Store) :=
  match d with
  | [] => [(key, val)]
  | (k, v) :: rest =>
      if k = key then (key, val) :: rest else (k, v) :: dictSet rest key val

/-- The `StoreRegistry` state: the `_stores` dict and the `_default_factory`
callable.  The factory receives the requested name and the fresh-identifier
counter and either raises (`Except.error`) or returns the constructed store
together with the advanced counter. -/
structure StoreRegistry (ε : Type) where
  stores : List (String × Store)
  default_factory : String → Nat → Except ε (Store × Nat)

/-- The `ValueError` raised by `StoreRegistry.register`. -/
inductive RegisterError where
  | valueError (msg : String)

/-- The message of the `ValueError` raised on a duplicate registration:
`f"Store with the name {name!r} already exists"`. -/
def duplicateStoreMessage (name : String) : String :=
  "Store with the name \x27" ++ name ++ "\x27 already exists"

/-- `StoreRegistry.register(self, name, store, override=False)`: raise
`ValueError` when `not override and name in self._stores`, else
`self._stores[name] = store`. -/
def StoreRegistry.register {ε : Type} (r : StoreRegistry ε) (name : String)
    (store : Store) (override : Bool) : Except RegisterError (StoreRegistry ε) :=
  if !override && (dictGet r.stores name).isSome then
    Except.error (RegisterError.valueError (duplicateStoreMessage name))
  else
    Except.ok ⟨dictSet r.stores name store, r.default_factory⟩

/-- The factory branch of `get`:
`store = self._stores[name] = self._default_factory(name)`.  The right-hand
side is evaluated first, so when the factory raises, no assignment happens
and the registry is unchanged.  On success the result is the store, the
updated registry, the advanced fresh counter, and the factory-invocation
count `1`. -/
def StoreRegistry.callFactory {ε : Type} (r : StoreRegistry ε) (name : String)
    (fresh : Nat) : Except ε (Store × StoreRegistry ε × Nat × Nat) :=
  match r.default_factory name fresh with
  | Except.error e => Except.error e
  | Except.ok (s, freshAfter) =>
      Except.ok (s, ⟨dictSet r.stores name s, r.default_factory⟩, freshAfter, 1)

/-- `StoreRegistry.get(self, name)`:
`store = self._stores.get(name)`; `if not store:` take the factory branch;
`return store`.  The Python truthiness test `not store` is true when the
lookup returned `None` (no binding) and also when the bound store itself is
falsy, which is why the `some` branch still consults `truthy`. -/
def StoreRegistry.get {ε : Type} (r : StoreRegistry ε) (name : String)
    (fresh : Nat) : Except ε (Store × StoreRegistry ε × Nat × Nat) :=
  match dictGet r.stores name with
  | none => r.callFactory name fresh
  | some store =>
      if store.truthy then Except.ok (store, r, fresh, 0)
      else r.callFactory name fresh

/-- The `default` property: `return self.get("default")`. -/
def StoreRegistry.default {ε : Type} (r : StoreRegistry ε) (fresh : Nat) :
    Except ε (Store × StoreRegistry ε × Nat × Nat) :=
  r.get "default" fresh

/-- Modelled from the spec: `MemoryStore` lives in
`src/starlite/stores/memory.py`, which is not part of the excerpt.  Per the
spec it is an in-memory `Store`, and each constructor call produces a fresh,
independent instance; a plain object is truthy in Python, so the modelled
instance is not falsy.  Construction consumes one fresh identifier. -/
def MemoryStore.construct (fresh : Nat) : Store × Nat :=
  (⟨fresh, true⟩, fresh + 1)

/-- `default_default_factory(name)`: `return MemoryStore()` — the requested
name is ignored and a fresh in-memory store is constructed on every
invocation. -/
def default_default_factory {ε : Type} (name : String) (fresh : Nat) :
    Except ε (Store × Nat) :=
  Except.ok (MemoryStore.construct fresh)

/-- `StoreRegistry.__init__(self, stores=None, default_factory=...)`:
`self._stores = stores or {}` (a falsy argument — `None` or an empty dict —
is replaced by a fresh empty dict), `self._default_factory = default_factory`. -/
def StoreRegistry.construct {ε : Type} (stores : Option (List (String × Store)))
    (default_factory : String → Nat → Except ε (Store × Nat)) : StoreRegistry ε :=
  ⟨match stores with
    | none => []
    | some d => if d.isEmpty then [] else d,
   default_factory⟩

/-- A factory whose product is falsy under Python truthiness (for example a
container-like store defining `__len__` that is empty when just built). -/
def falsyFactory : String → Nat → Except Unit (Store × Nat) :=
  fun _ fresh => Except.ok (⟨fresh, false⟩, fresh + 1)

/-- A factory whose product is an ordinary truthy object. -/
def truthyFactory : String → Nat → Except Unit (Store × Nat) :=
  fun _ fresh => Except.ok (⟨fresh, true⟩, fresh + 1)

/-- A factory that raises on every invocation. -/
def raisingFactory : String → Nat → Except Unit (Store × Nat) :=
  fun _ _ => Except.error ()

/-- An empty registry whose factory produces falsy stores. -/
def emptyFalsyRegistry : StoreRegistry Unit := ⟨[], falsyFactory⟩

/-- A registry holding a falsy store under `"x"`, with a truthy factory. -/
def falsyBoundRegistry : StoreRegistry Unit := ⟨[("x", ⟨7, false⟩)], truthyFactory⟩

/-- A registry holding a falsy store under `"x"`, with a raising factory. -/
def falsyRaisingRegistry : StoreRegistry Unit := ⟨[("x", ⟨7, false⟩)], raisingFactory⟩

/-- A store that is falsy under Python truthiness (`bool(storeA)` is false). -/
def storeA : Store := ⟨7, false⟩

/-- An ordinary truthy store. -/
def storeB : Store := ⟨8, true⟩

/-- C1: the claim says a second `get(name)` returns the identical store with
no second factory invocation.  Evaluating the code: with a factory whose
stores are falsy, the first `get "x"` invokes the factory once and installs
its result, but the second `get "x"` finds the stored value falsy, invokes
the factory again (invocation count `1`), and installs and returns a
different instance. -/
theorem c1_second_get_reinvokes_factory :
    emptyFalsyRegistry.get "x" 0 =
      Except.ok (⟨0, false⟩, ⟨[("x", ⟨0, false⟩)], falsyFactory⟩, 1, 1) ∧
    StoreRegistry.get ⟨[("x", ⟨0, false⟩)], falsyFactory⟩ "x" 1 =
      Except.ok (⟨1, false⟩, ⟨[("x", ⟨1, false⟩)], falsyFactory⟩, 2, 1) ∧
    (⟨0, false⟩ : Store) ≠ (⟨1, false⟩ : Store) :=
  ⟨rfl, rfl, by decide⟩

/-- C2: the claim says repeated `get(name)` never replaces an entry and only
`register` can.  Evaluating the code: with a falsy store bound under `"x"`,
a single `get "x"` (no `register` involved) replaces the entry with a fresh
factory store. -/
theorem c2_get_replaces_falsy_entry :
    dictGet falsyBoundRegistry.stores "x" = some ⟨7, false⟩ ∧
    falsyBoundRegistry.get "x" 0 =
      Except.ok (⟨0, true⟩, ⟨[("x", ⟨0, true⟩)], truthyFactory⟩, 1, 1) :=
  ⟨rfl, rfl⟩

/-- C3: the claim says after `register("x", storeA)` every `get "x"` returns
exactly `storeA` without invoking the factory.  Evaluating the code: when
`storeA` is falsy, `register` succeeds, but `get "x"` invokes the factory
(count `1`) and returns its product instead of `storeA`. -/
theorem c3_get_after_register_not_identity :
    StoreRegistry.register ⟨[], truthyFactory⟩ "x" storeA false =
      Except.ok ⟨[("x", storeA)], truthyFactory⟩ ∧
    StoreRegistry.get ⟨[("x", storeA)], truthyFactory⟩ "x" 0 =
      Except.ok (⟨0, true⟩, ⟨[("x", ⟨0, true⟩)], truthyFactory⟩, 1, 1) ∧
    (⟨0, true⟩ : Store) ≠ storeA :=
  ⟨rfl, rfl, by decide⟩

/-- C4: the claim says a failed duplicate `register` leaves the entry
untouched, observable as a subsequent `get(name)` still returning the
previously registered store.  Evaluating the code: with a falsy `storeA`
bound under `"x"`, `register "x" storeB false` correctly raises the
`ValueError` naming `"x"` and the mapping still binds `storeA`, but the
subsequent `get "x"` returns a fresh factory store rather than `storeA`. -/
theorem c4_failed_register_then_get_not_previous :
    StoreRegistry.register ⟨[("x", storeA)], truthyFactory⟩ "x" storeB false =
      Except.error (RegisterError.valueError (duplicateStoreMessage "x")) ∧
    dictGet (⟨[("x", storeA)], truthyFactory⟩ : StoreRegistry Unit).stores "x" =
      some storeA ∧
    StoreRegistry.get ⟨[("x", storeA)], truthyFactory⟩ "x" 0 =
      Except.ok (⟨0, true⟩, ⟨[("x", ⟨0, true⟩)], truthyFactory⟩, 1, 1) ∧
    (⟨0, true⟩ : Store) ≠ storeA :=
  ⟨rfl, rfl, rfl, by decide⟩

/-- C5: the claim says a factory error propagates unchanged and leaves the
registry without an entry under the name.  Evaluating the code: with a falsy
store bound under `"x"` and a raising factory, `get "x"` invokes the factory
(although an entry exists), propagates the error unchanged — and the old
entry is still bound under `"x"` afterwards, since the failed call mutates
nothing. -/
theorem c5_factory_error_entry_still_present :
    falsyRaisingRegistry.get "x" 0 = Except.error () ∧
    dictGet falsyRaisingRegistry.stores "x" = some ⟨7, false⟩ :=
  ⟨rfl, rfl⟩

/-- C6: the claim says `default` is equivalent to `get "default"` and that
subsequent calls to either return the same instance.  The equivalence holds
for every registry state (first conjunct), but evaluating the code with a
factory producing falsy stores, a second `default` call invokes the factory
again and returns a different instance. -/
theorem c6_default_second_call_differs :
    (∀ (r : StoreRegistry Unit) (fresh : Nat), r.default fresh = r.get "default" fresh) ∧
    emptyFalsyRegistry.default 0 =
      Except.ok (⟨0, false⟩, ⟨[("default", ⟨0, false⟩)], falsyFactory⟩, 1, 1) ∧
    StoreRegistry.default ⟨[("default", ⟨0, false⟩)], falsyFactory⟩ 1 =
      Except.ok (⟨1, false⟩, ⟨[("default", ⟨1, false⟩)], falsyFactory⟩, 2, 1) ∧
    (⟨0, false⟩ : Store) ≠ (⟨1, false⟩ : Store) :=
  ⟨fun _ _ => rfl, rfl, rfl, by decide⟩

/-- Looking a key up right after setting it yields the value just set. -/
theorem dictGet_dictSet_self (d : List (String × Store)) (key : String) (v : Store) :
    dictGet (dictSet d key v) key = some v := by
  induction d with
  | nil => simp [dictGet, dictSet]
  | cons head rest ih =>
      obtain ⟨k, w⟩ := head
      by_cases h : k = key
      · simp [dictGet, dictSet, h]
      · simp [dictGet, dictSet, h, ih]

/-- Setting one key leaves every other key's binding unchanged. -/
theorem dictGet_dictSet_ne (d : List (String × Store)) (key other : String)
    (v : Store) (h : other ≠ key) :
    dictGet (dictSet d key v) other = dictGet d other := by
  induction d with
  | nil => simp [dictGet, dictSet, Ne.symm h]
  | cons head rest ih =>
      obtain ⟨k, w⟩ := head
      by_cases hk : k = key
      · subst hk
        simp [dictGet, dictSet, Ne.symm h]
      · simp [dictGet, dictSet, hk, ih]

/-- On a genuine miss (`name` unbound), `get` takes the factory branch. -/
theorem StoreRegistry.get_miss {ε : Type} (r : StoreRegistry ε) (name : String)
    (fresh : Nat) (h : dictGet r.stores name = none) :
    r.get name fresh = r.callFactory name fresh := by
  unfold StoreRegistry.get
  rw [h]

/-- On a hit whose store is truthy, `get` returns the bound store, leaves the
registry unchanged, and does not invoke the factory. -/
theorem StoreRegistry.get_truthy {ε : Type} (r : StoreRegistry ε) (name : String)
    (fresh : Nat) (s : Store) (h : dictGet r.stores name = some s)
    (ht : s.truthy = true) :
    r.get name fresh = Except.ok (s, r, fresh, 0) := by
  unfold StoreRegistry.get
  rw [h]
  simp [ht]

/-- On a hit whose store is falsy, `get` takes the factory branch all the
same — the Python test is `if not store`, not a presence check. -/
theorem StoreRegistry.get_falsy {ε : Type} (r : StoreRegistry ε) (name : String)
    (fresh : Nat) (s : Store) (h : dictGet r.stores name = some s)
    (ht : s.truthy = false) :
    r.get name fresh = r.callFactory name fresh := by
  unfold StoreRegistry.get
  rw [h]
  simp [ht]

/-- Whatever registry a successful factory branch returns differs from the
input registry only at the requested name, and keeps the factory. -/
theorem StoreRegistry.callFactory_frame {ε : Type} (r r' : StoreRegistry ε)
    (name other : String) (st : Store) (fresh freshAfter calls : Nat)
    (hno : other ≠ name)
    (h : r.callFactory name fresh = Except.ok (st, r', freshAfter, calls)) :
    dictGet r'.stores other = dictGet r.stores other ∧
      r'.default_factory = r.default_factory := by
  unfold StoreRegistry.callFactory at h
  cases hfac : r.default_factory name fresh with
  | error e => rw [hfac] at h; exact absurd h (by simp)
  | ok p =>
      obtain ⟨s', f'⟩ := p
      rw [hfac] at h
      simp only [Except.ok.injEq, Prod.mk.injEq] at h
      obtain ⟨-, hr, -, -⟩ := h
      subst hr
      exact ⟨dictGet_dictSet_ne r.stores name other s' hno, rfl⟩

/-- C7: with the fallback factory (`default_default_factory`, which ignores
the requested name and constructs a fresh in-memory store on every
invocation), `get` on two distinct never-registered names invokes the
factory once each and returns two distinct, independent store instances. -/
theorem c7_default_factory_distinct_stores {ε : Type} (r : StoreRegistry ε)
    (a b : String) (fresh : Nat)
    (hf : r.default_factory = @default_default_factory ε)
    (ha : dictGet r.stores a = none) (hb : dictGet r.stores b = none)
    (hab : a ≠ b) :
    (∀ (n m : String) (f : Nat),
        @default_default_factory ε n f = @default_default_factory ε m f) ∧
    ∃ (r₁ r₂ : StoreRegistry ε) (freshEnd : Nat),
      r.get a fresh = Except.ok (⟨fresh, true⟩, r₁, fresh + 1, 1) ∧
      r₁.get b (fresh + 1) = Except.ok (⟨fresh + 1, true⟩, r₂, freshEnd, 1) ∧
      (⟨fresh, true⟩ : Store) ≠ (⟨fresh + 1, true⟩ : Store) := by
  constructor
  · exact fun n m f => rfl
  · have hb₁ : dictGet (dictSet r.stores a ⟨fresh, true⟩) b = none := by
      rw [dictGet_dictSet_ne r.stores a b ⟨fresh, true⟩ (Ne.symm hab), hb]
    refine ⟨⟨dictSet r.stores a ⟨fresh, true⟩, r.default_factory⟩,
      ⟨dictSet (dictSet r.stores a ⟨fresh, true⟩) b ⟨fresh + 1, true⟩,
        r.default_factory⟩, fresh + 2, ?_, ?_, ?_⟩
    · rw [StoreRegistry.get_miss r a fresh ha]
      unfold StoreRegistry.callFactory
      rw [hf]
      rfl
    · rw [StoreRegistry.get_miss _ b (fresh + 1) hb₁]
      unfold StoreRegistry.callFactory
      rw [hf]
      rfl
    · intro hcontra
      have : fresh = fresh + 1 := congrArg Store.oid hcontra
      omega

/-- An empty registry equipped with the fallback factory. -/
def emptyDefaultRegistry : StoreRegistry Unit := ⟨[], default_default_factory⟩

/-- Witness for C7 at the concrete input: the empty fallback-factory registry,
names `"a"` and `"b"`, fresh counter `0`. -/
theorem c7_witness :
    (∀ (n m : String) (f : Nat),
        @default_default_factory Unit n f = @default_default_factory Unit m f) ∧
    ∃ (r₁ r₂ : StoreRegistry Unit) (freshEnd : Nat),
      emptyDefaultRegistry.get "a" 0 = Except.ok (⟨0, true⟩, r₁, 1, 1) ∧
      r₁.get "b" 1 = Except.ok (⟨1, true⟩, r₂, freshEnd, 1) ∧
      (⟨0, true⟩ : Store) ≠ (⟨1, true⟩ : Store) :=
  c7_default_factory_distinct_stores emptyDefaultRegistry "a" "b" 0 rfl rfl rfl
    (by decide)

/-- A registry holding a falsy store under the empty string, with a truthy
factory. -/
def falsyEmptyNameRegistry : StoreRegistry Unit := ⟨[("", ⟨7, false⟩)], truthyFactory⟩

/-- C9 counterexample: the claim as frozen says `get ""` returns the bound
store.  With a falsy store bound under `""`, `get ""` instead invokes the
factory (count `1`), installs its product over the old entry and returns it —
a different instance from the bound store. -/
theorem c9_falsy_empty_name_counterexample :
    dictGet falsyEmptyNameRegistry.stores "" = some ⟨7, false⟩ ∧
    falsyEmptyNameRegistry.get "" 0 =
      Except.ok (⟨0, true⟩, ⟨[("", ⟨0, true⟩)], truthyFactory⟩, 1, 1) ∧
    (⟨0, true⟩ : Store) ≠ (⟨7, false⟩ : Store) :=
  ⟨rfl, rfl, by decide⟩

/-- C9 as amended: the code never validates the spec's non-empty-name
precondition: the empty string is an ordinary key.  `register "" s false`
succeeds exactly when no binding for `""` exists and raises the duplicate
`ValueError` naming `""` exactly when one does; `get ""` returns the bound
store when it is truthy, and takes the factory branch (invoking the factory
with `""`) on a miss — and also, as for any other name, when the bound store
is falsy, since `if not store` treats it as a miss. -/
theorem c9_empty_name_is_ordinary_key {ε : Type} (r : StoreRegistry ε)
    (s : Store) (fresh : Nat) :
    (dictGet r.stores "" = none →
      r.register "" s false =
        Except.ok ⟨dictSet r.stores "" s, r.default_factory⟩) ∧
    ((dictGet r.stores "").isSome = true →
      r.register "" s false =
        Except.error (RegisterError.valueError (duplicateStoreMessage ""))) ∧
    (dictGet r.stores "" = none → r.get "" fresh = r.callFactory "" fresh) ∧
    (∀ t : Store, dictGet r.stores "" = some t → t.truthy = true →
      r.get "" fresh = Except.ok (t, r, fresh, 0)) ∧
    (∀ t : Store, dictGet r.stores "" = some t → t.truthy = false →
      r.get "" fresh = r.callFactory "" fresh) := by
  refine ⟨?_, ?_, ?_, ?_, ?_⟩
  · intro h
    simp [StoreRegistry.register, h]
  · intro h
    simp [StoreRegistry.register, h]
  · intro h
    exact StoreRegistry.get_miss r "" fresh h
  · intro t h ht
    exact StoreRegistry.get_truthy r "" fresh t h ht
  · intro t h ht
    exact StoreRegistry.get_falsy r "" fresh t h ht

/-- C10: frame property.  A successful `register` at name `n` and a
successful `get` at name `n` each leave the binding (or absence of one) under
every other name `m` unchanged, and neither ever changes the registry's
default factory. -/
theorem c10_register_get_frame {ε : Type} (r r₁ r₂ : StoreRegistry ε)
    (n m : String) (s st : Store) (ov : Bool) (fresh freshAfter calls : Nat)
    (hnm : m ≠ n) (hreg : r.register n s ov = Except.ok r₁)
    (hget : r.get n fresh = Except.ok (st, r₂, freshAfter, calls)) :
    dictGet r₁.stores m = dictGet r.stores m ∧
    r₁.default_factory = r.default_factory ∧
    dictGet r₂.stores m = dictGet r.stores m ∧
    r₂.default_factory = r.default_factory := by
  have hregpart : dictGet r₁.stores m = dictGet r.stores m ∧
      r₁.default_factory = r.default_factory := by
    unfold StoreRegistry.register at hreg
    by_cases hc : (!ov && (dictGet r.stores n).isSome) = true
    · rw [if_pos hc] at hreg
      exact absurd hreg (by simp)
    · rw [if_neg hc] at hreg
      simp only [Except.ok.injEq] at hreg
      subst hreg
      exact ⟨dictGet_dictSet_ne r.stores n m s hnm, rfl⟩
  have hgetpart : dictGet r₂.stores m = dictGet r.stores m ∧
      r₂.default_factory = r.default_factory := by
    cases hd : dictGet r.stores n with
    | none =>
        rw [StoreRegistry.get_miss r n fresh hd] at hget
        exact StoreRegistry.callFactory_frame r r₂ n m st fresh freshAfter calls
          hnm hget
    | some t =>
        by_cases ht : t.truthy = true
        · rw [StoreRegistry.get_truthy r n fresh t hd ht] at hget
          simp only [Except.ok.injEq, Prod.mk.injEq] at hget
          obtain ⟨-, hr, -, -⟩ := hget
          subst hr
          exact ⟨rfl, rfl⟩
        · rw [StoreRegistry.get_falsy r n fresh t hd
            (Bool.not_eq_true t.truthy ▸ ht)] at hget
          exact StoreRegistry.callFactory_frame r r₂ n m st fresh freshAfter
            calls hnm hget
  exact ⟨hregpart.1, hregpart.2, hgetpart.1, hgetpart.2⟩

/-- A registry binding a truthy store under `"y"`, for the frame witness. -/
def frameRegistry : StoreRegistry Unit := ⟨[("y", ⟨5, true⟩)], truthyFactory⟩

/-- `frameRegistry` after `register "x" ⟨9, true⟩ false`. -/
def frameAfterRegister : StoreRegistry Unit :=
  ⟨[("y", ⟨5, true⟩), ("x", ⟨9, true⟩)], truthyFactory⟩

/-- `frameRegistry` after `get "x"` from fresh counter `0`. -/
def frameAfterGet : StoreRegistry Unit :=
  ⟨[("y", ⟨5, true⟩), ("x", ⟨0, true⟩)], truthyFactory⟩

/-- Witness for C10 at the concrete input: registering and getting `"x"` on
`frameRegistry` leaves the binding under `"y"` and the factory unchanged. -/
theorem c10_register_get_frame_witness :
    dictGet frameAfterRegister.stores "y" = dictGet frameRegistry.stores "y" ∧
    frameAfterRegister.default_factory = frameRegistry.default_factory ∧
    dictGet frameAfterGet.stores "y" = dictGet frameRegistry.stores "y" ∧
    frameAfterGet.default_factory = frameRegistry.default_factory :=
  c10_register_get_frame frameRegistry frameAfterRegister frameAfterGet "x" "y"
    ⟨9, true⟩ ⟨0, true⟩ false 0 1 1 (by decide) rfl rfl
